import Mathlib

/-!
Shallow embedding of the servoom Divoom image codec
(src/c/decompiled_code.c) and verification of the frozen claims.

Conventions used throughout:
* Byte buffers from the C code are `List Nat`; every read goes through
  `byteAt`, which truncates to one byte, so out-of-range reads return 0
  (malloc'ed and stack memory that the C code leaves uninitialized is
  modeled as zero-filled; no theorem below depends on a particular value
  of such memory unless explicitly noted in its doc comment).
* Writable buffers (palette store, output rasters, encoder output) are
  total functions `Nat → Nat` updated pointwise by `bufWrite`.
* C machine integers become `Nat` with explicit masks: `&&& 0xffff` for
  `ushort` stores, `% 2^32` where `uint` wrap-around matters.
* The vectorized (unrolled 8/16-entry) palette copy loops of the
  decompiled code are modeled by their scalar equivalent, which copies
  the same bytes to the same locations; the chunked paths are only taken
  when the 16-bit entry index cannot wrap, so the per-entry masked write
  used here is observationally identical.
* Loops of the C code that are not structurally bounded (the
  length-prefixed frame walks and the encoder/decoder RLE scans) are
  embedded with explicit fuel and return `Option`.
-/

/-- Read byte `i` of a byte list; reads past the end return 0 and any
stored value is truncated to 8 bits. -/
def byteAt (l : List Nat) (i : Nat) : Nat := l.getD i 0 % 256

/-- Little-endian 16-bit read at byte offset `i`, as the C code's
`*(ushort *)(p + i)`. -/
def u16le (l : List Nat) (i : Nat) : Nat := byteAt l i + (byteAt l (i + 1)) <<< 8

/-- Pointwise store of one byte into a buffer modeled as a function. -/
def bufWrite (b : Nat → Nat) (i v : Nat) : Nat → Nat :=
  fun j => if j = i then v % 256 else b j

/-- `divoom_image_get_bits`, inner do/while loop of the `0x100 <` branch
(lines 3776-3788): repeatedly shifts the size right, tracking the highest
set bit with the decompiled code's exact update order.  The extra fuel
argument only serves structural recursion: the loop halves its argument
each pass, so 0x21 units of fuel are never exhausted for a 32-bit
size and the fuel-out branch is unreachable from `divoom_image_get_bits`. -/
def imageGetBitsLoop (paletteSize paletteSizeMasked bitIndex : Nat) : Nat → Nat
  | 0 => paletteSizeMasked
  | fuel + 1 =>
    let nextBitCount := bitIndex + 1
    let bitIndex2 := if (paletteSizeMasked ^^^ 0xffffffff) &&& 0xff ≠ 0 then bitIndex + 1 else bitIndex
    let masked2 := if paletteSize &&& 1 ≠ 0 then bitIndex2 else paletteSizeMasked
    if 1 < paletteSize &&& 0xffff then
      imageGetBitsLoop ((paletteSize >>> 1) &&& 0x7fff) masked2 nextBitCount fuel
    else masked2

/-- `divoom_image_get_bits` (lines 3755-3806): bits-per-index from a
palette size, `uint` argument and result; the decompiled branch ladder is
kept as-is, including `paletteSize - 1` (uint wrap-around) for masked
sizes below 3. -/
def divoom_image_get_bits (paletteSize : Nat) : Nat :=
  let m := paletteSize &&& 0xffff
  if 0x20 < m then
    if m < 0x101 then
      if 0x80 < m then 8
      else if 0x40 < m then 7
      else 6
    else imageGetBitsLoop paletteSize 0xff 0 0x21
  else if 0x10 < m then 5
  else if 8 < m then 4
  else if m < 5 then
    if m < 3 then (paletteSize + 0xffffffff) % 2 ^ 32 else 2
  else 3

/-- `divoom_multipic_get_bits`, inner do/while loop (lines 4496-4507).
As in `imageGetBitsLoop`, the fuel is only for structural recursion: the
loop halves its byte argument each pass, so 9 units are never exhausted. -/
def multipicGetBitsLoop (bitsNeeded remainingValue bitCount : Nat) : Nat → Nat
  | 0 => bitsNeeded
  | fuel + 1 =>
    let nextBitCount := bitCount + 1
    let bitCount2 := if (bitsNeeded ^^^ 0xffffffff) &&& 0xff ≠ 0 then bitCount + 1 else bitCount
    let bitsNeeded2 := if remainingValue &&& 1 ≠ 0 then bitCount2 else bitsNeeded
    if 1 < remainingValue then
      multipicGetBitsLoop bitsNeeded2 (remainingValue >>> 1) nextBitCount fuel
    else bitsNeeded2

/-- `divoom_multipic_get_bits` (lines 4483-4511), `byte` argument. -/
def divoom_multipic_get_bits (value : Nat) : Nat :=
  if value &&& 0xff ≠ 0 then multipicGetBitsLoop 0xff (value &&& 0xff) 0 9 else 0xff

/-- Modelled from the spec: the module-scope table
`gdivoom_image_bits_table` that every frame decoder indexes by the
current palette count is data of this repository that is not present in
src/ (only its uses are).  Per the spec's bits-per-index table,
palette size 0, 1, 2 map to 1 bit and sizes 3..256 map to the minimal
index width; indices past the 257 tabulated entries are modeled as 0. -/
def gdivoom_image_bits_table (n : Nat) : Nat :=
  if n ≤ 2 then 1
  else if n ≤ 4 then 2
  else if n ≤ 8 then 3
  else if n ≤ 16 then 4
  else if n ≤ 32 then 5
  else if n ≤ 64 then 6
  else if n ≤ 128 then 7
  else if n ≤ 256 then 8
  else 0

/-- `divoom_image_get_dot_info_ex` (lines 3854-3870): unaligned LSB-first
bit-field read of `bpi` bits starting at bit `bitOffset`.  The C
`(int)bitOffset >> 3` is modeled as `bitOffset >>> 3` (the decoders only
pass nonnegative offsets below 2^31). -/
def divoom_image_get_dot_info_ex (m : List Nat) (bitOffset bpi : Nat) : Nat :=
  let bitOffsetInByte := bitOffset &&& 7
  let totalBits := bitOffsetInByte + bpi
  if 8 < totalBits then
    (((byteAt m (bitOffset >>> 3 + 1)) <<< ((0x10 - totalBits) &&& 0x1f) &&& 0xff) >>>
        ((0x10 - totalBits) &&& 0x1f)) <<< ((8 - bitOffsetInByte) &&& 0x1f) |||
      ((byteAt m (bitOffset >>> 3)) >>> bitOffsetInByte)
  else
    ((byteAt m (bitOffset >>> 3)) <<< ((8 - totalBits) &&& 0x1f) &&& 0xff) >>>
      ((8 - totalBits + bitOffsetInByte) &&& 0x1f)

/-- `n &&& 0x1f = n` for shift counts below 32 (the C code masks every
variable shift amount with `0x1f`). -/
theorem land_thirtyone_of_lt {n : Nat} (h : n < 32) : n &&& 0x1f = n := by
  have h5 : (0x1f : Nat) = 2 ^ 5 - 1 := by norm_num
  rw [h5, Nat.and_pow_two_sub_one_eq_mod, Nat.mod_eq_of_lt (by omega)]

/-- Shifting a value left by `s`, masking to one byte and shifting right
by `s + b` keeps bits `b..t-1` of the value, where `s + t = 8`. -/
theorem maskShift_byte (x s t b : Nat) (hst : s + t = 8) :
    ((x <<< s) &&& 0xff) >>> (s + b) = x % 2 ^ t / 2 ^ b := by
  have h8 : (0xff : Nat) = 2 ^ 8 - 1 := by norm_num
  rw [Nat.shiftLeft_eq, h8, Nat.and_pow_two_sub_one_eq_mod, Nat.shiftRight_eq_div_pow]
  have hpow : (2 : Nat) ^ 8 = 2 ^ t * 2 ^ s := by
    rw [← pow_add, Nat.add_comm t s, hst]
  rw [hpow, Nat.mul_mod_mul_right, pow_add, ← Nat.div_div_eq_div_mul,
    Nat.mul_div_cancel _ (Nat.two_pow_pos s)]

/-- C7: the unaligned LSB-first bit-field read of
`divoom_image_get_dot_info_ex` at byte index `i`, bit offset `b < 8` and
width `w ∈ [1,8]` returns `(bytes[i] >> b) & ((1<<w)-1)` when
`b + w ≤ 8`, and otherwise OR-combines `bytes[i] >> b` with
`(bytes[i+1] & ((1 << (w-(8-b)))-1)) << (8-b)`, exactly as the spec
states. -/
theorem dot_info_ex_bitfield_contract (m : List Nat) (i b w : Nat)
    (hb : b < 8) (hw1 : 1 ≤ w) (hw8 : w ≤ 8) :
    divoom_image_get_dot_info_ex m (8 * i + b) w =
      if b + w ≤ 8 then (byteAt m i >>> b) &&& ((1 <<< w) - 1)
      else (byteAt m i >>> b) |||
        ((byteAt m (i + 1) &&& ((1 <<< (w - (8 - b))) - 1)) <<< (8 - b)) := by
  have hx7 : (8 * i + b) &&& 7 = b := by
    have h7 : (7 : Nat) = 2 ^ 3 - 1 := by norm_num
    have h23 : (2 : Nat) ^ 3 = 8 := by norm_num
    rw [h7, Nat.and_pow_two_sub_one_eq_mod, h23, Nat.mul_add_mod, Nat.mod_eq_of_lt hb]
  have hx3 : (8 * i + b) >>> 3 = i := by
    have h23 : (2 : Nat) ^ 3 = 8 := by norm_num
    rw [Nat.shiftRight_eq_div_pow, h23, Nat.mul_add_div (by omega),
      Nat.div_eq_of_lt hb, Nat.add_zero]
  unfold divoom_image_get_dot_info_ex
  simp only [hx7, hx3]
  by_cases hbw : b + w ≤ 8
  · rw [if_neg (by omega), if_pos hbw]
    rw [land_thirtyone_of_lt (n := 8 - (b + w)) (by omega),
      land_thirtyone_of_lt (n := 8 - (b + w) + b) (by omega)]
    rw [maskShift_byte (byteAt m i) (8 - (b + w)) (b + w) b (by omega)]
    have hmsk : (1 <<< w - 1 : Nat) = 2 ^ w - 1 := by
      rw [Nat.shiftLeft_eq, Nat.one_mul]
    rw [hmsk, Nat.and_pow_two_sub_one_eq_mod, Nat.shiftRight_eq_div_pow]
    rw [show b + w = b + w from rfl, pow_add, Nat.mod_mul_right_div_self]
  · rw [if_pos (by omega), if_neg hbw]
    rw [land_thirtyone_of_lt (n := 0x10 - (b + w)) (by omega),
      land_thirtyone_of_lt (n := 8 - b) (by omega)]
    have hms := maskShift_byte (byteAt m (i + 1)) (0x10 - (b + w)) (b + w - 8) 0 (by omega)
    simp only [Nat.add_zero, pow_zero, Nat.div_one] at hms
    rw [hms]
    have hmsk : (1 <<< (w - (8 - b)) - 1 : Nat) = 2 ^ (b + w - 8) - 1 := by
      rw [Nat.shiftLeft_eq, Nat.one_mul]
      congr 2
      omega
    rw [hmsk, Nat.and_pow_two_sub_one_eq_mod, Nat.lor_comm]

/-- Witness for the bit-reader contract at a concrete two-byte map,
straddling read (`b = 3`, `w = 7`). -/
theorem dot_info_ex_bitfield_contract_witness :
    3 < 8 ∧ 1 ≤ 7 ∧ 7 ≤ 8 ∧
      divoom_image_get_dot_info_ex [0xab, 0xcd] (8 * 0 + 3) 7 =
        if 3 + 7 ≤ 8 then (byteAt [0xab, 0xcd] 0 >>> 3) &&& ((1 <<< 7) - 1)
        else (byteAt [0xab, 0xcd] 0 >>> 3) |||
          ((byteAt [0xab, 0xcd] 1 &&& ((1 <<< (7 - (8 - 3))) - 1)) <<< (8 - 3)) :=
  ⟨by decide, by decide, by decide,
    dot_info_ex_bitfield_contract [0xab, 0xcd] 0 3 7 (by decide) (by decide) (by decide)⟩

/-- C6 counterexample: the claim says `divoom_image_get_bits` returns 1
for palette sizes 0, 1 and 2, but for size 1 the code computes
`paletteSize - 1` and returns 0 (and for size 0 it returns the uint
wrap-around 0xFFFFFFFF). -/
theorem image_get_bits_one_is_zero : divoom_image_get_bits 1 = 0 ∧ divoom_image_get_bits 1 ≠ 1 := by
  constructor <;> decide

set_option maxRecDepth 40000 in
/-- C6 amended: `divoom_image_get_bits` computes `size - 1` (as a 32-bit
uint) for masked sizes below 3 — 0xFFFFFFFF for 0, 0 for 1, 1 for 2 —
and agrees with the spec's bits-per-index table on sizes 3..256; the
module-scope table itself (modelled from the spec, its data being absent
from src/) maps 0, 1 and 2 to 1; `divoom_multipic_get_bits` likewise
returns 0xFF for 0 and 0 for 1 and agrees with the table on 2..255. -/
theorem bits_per_index_mapping_amended :
    divoom_image_get_bits 0 = 0xffffffff ∧
    divoom_image_get_bits 1 = 0 ∧
    divoom_image_get_bits 2 = 1 ∧
    (∀ n < 257, 3 ≤ n → divoom_image_get_bits n = gdivoom_image_bits_table n) ∧
    divoom_multipic_get_bits 0 = 0xff ∧
    divoom_multipic_get_bits 1 = 0 ∧
    (∀ n < 256, 2 ≤ n → divoom_multipic_get_bits n = gdivoom_image_bits_table n) ∧
    gdivoom_image_bits_table 0 = 1 ∧ gdivoom_image_bits_table 1 = 1 ∧
    gdivoom_image_bits_table 2 = 1 := by
  refine ⟨by decide, by decide, by decide, by decide, by decide, by decide, by decide,
    by decide, by decide, by decide⟩

/-- Witness for the amended bits-per-index mapping at size 7. -/
theorem bits_per_index_mapping_amended_witness :
    7 < 257 ∧ 3 ≤ 7 ∧ divoom_image_get_bits 7 = gdivoom_image_bits_table 7 :=
  ⟨by decide, by decide,
    bits_per_index_mapping_amended.2.2.2.1 7 (by decide) (by decide)⟩

/-- Frame-counting do/while loop of `divoom_image_decode_add_data`
(lines 44-52): stop on a non-0xAA byte, otherwise advance the offset by
the frame's declared 16-bit length and count it, while the (signed)
offset stays below the input length.  Fuel-indexed because the C loop
does not terminate when a visited length field is 0; offsets are modeled
below 2^31 so the signed comparison is the Nat one. -/
def addDataWalkAux (input : List Nat) (len : Nat) (offset count : Nat) : Nat → Option Nat
  | 0 => none
  | fuel + 1 =>
    if byteAt input offset ≠ 0xaa then some count
    else
      let count2 := (count + 1) % 2 ^ 32
      let offset2 := (u16le input (offset + 1) + offset) % 2 ^ 32
      if offset2 < len then addDataWalkAux input len offset2 count2 fuel
      else some count2

/-- The frame-counting walk of `divoom_image_decode_add_data`
(lines 40-53): returns 0 for a nonpositive length, else walks the
length-prefixed chain from offset 0. -/
def divoom_image_decode_add_data_walk (input : List Nat) (len fuel : Nat) : Option Nat :=
  if len < 1 then some 0 else addDataWalkAux input len 0 0 fuel

/-- Counting do/while loop of `divoom_image_decode_decode_get_pic_num`
(lines 1229-1232): same chain walk but with no magic-byte check and an
unsigned length comparison. -/
def picNumWalkAux (input : List Nat) (len : Nat) (offset count : Nat) : Nat → Option Nat
  | 0 => none
  | fuel + 1 =>
    let count2 := (count + 1) % 2 ^ 32
    let offset2 := (u16le input (offset + 1) + offset) % 2 ^ 32
    if offset2 < len then picNumWalkAux input len offset2 count2 fuel
    else some count2

/-- `divoom_image_decode_decode_get_pic_num` (lines 1219-1235). -/
def divoom_image_decode_decode_get_pic_num (input : List Nat) (len fuel : Nat) : Option Nat :=
  if len = 0 then some 0 else picNumWalkAux input len 0 0 fuel

/-- The `add_data` counting walk runs forever on the given input: no
amount of fuel makes it return. -/
def addDataWalkDiverges (input : List Nat) (len : Nat) : Prop :=
  ∀ count fuel, addDataWalkAux input len 0 count fuel = none

/-- C5 counterexample: on the 3-byte stream `AA 00 00` — a frame whose
16-bit length field is 0 — the frame-counting walk of `add_data` never
advances its offset and never terminates, for any fuel, refuting
"terminates ... including inputs containing a frame whose 16-bit length
field is 0". -/
theorem add_data_walk_zero_length_diverges : addDataWalkDiverges [0xaa, 0, 0] 3 := by
  intro count fuel
  induction fuel generalizing count with
  | zero => rfl
  | succ n ih =>
    show addDataWalkAux [0xaa, 0, 0] 3 0 count (n + 1) = none
    unfold addDataWalkAux
    norm_num [byteAt, u16le]
    exact ih _

theorem addDataWalkAux_terminates (input : List Nat) (len : Nat)
    (hlen : len + 0x10000 < 2 ^ 32)
    (hnz : ∀ o, o < len → u16le input (o + 1) ≠ 0) :
    ∀ fuel offset count, offset < len → len ≤ offset + fuel →
      (addDataWalkAux input len offset count fuel).isSome = true := by
  intro fuel
  induction fuel with
  | zero => intro offset count h1 h2; omega
  | succ n ih =>
    intro offset count h1 h2
    unfold addDataWalkAux
    by_cases hmag : byteAt input offset ≠ 0xaa
    · rw [if_pos hmag]; rfl
    · rw [if_neg hmag]
      have hu : u16le input (offset + 1) ≤ 0xffff := by
        unfold u16le byteAt
        have b1 : (List.getD input (offset + 1) 0) % 256 < 256 := Nat.mod_lt _ (by omega)
        have b2 : (List.getD input (offset + 1 + 1) 0) % 256 < 256 := Nat.mod_lt _ (by omega)
        rw [Nat.shiftLeft_eq]
        omega
      have hno : (u16le input (offset + 1) + offset) % 2 ^ 32 =
          u16le input (offset + 1) + offset := Nat.mod_eq_of_lt (by omega)
      simp only [hno]
      by_cases hlt : u16le input (offset + 1) + offset < len
      · rw [if_pos hlt]
        have hpos : u16le input (offset + 1) ≠ 0 := hnz offset h1
        exact ih _ _ hlt (by omega)
      · rw [if_neg hlt]; rfl

theorem picNumWalkAux_terminates (input : List Nat) (len : Nat)
    (hlen : len + 0x10000 < 2 ^ 32)
    (hnz : ∀ o, o < len → u16le input (o + 1) ≠ 0) :
    ∀ fuel offset count, offset < len → len ≤ offset + fuel →
      (picNumWalkAux input len offset count fuel).isSome = true := by
  intro fuel
  induction fuel with
  | zero => intro offset count h1 h2; omega
  | succ n ih =>
    intro offset count h1 h2
    unfold picNumWalkAux
    have hu : u16le input (offset + 1) ≤ 0xffff := by
      unfold u16le byteAt
      have b1 : (List.getD input (offset + 1) 0) % 256 < 256 := Nat.mod_lt _ (by omega)
      have b2 : (List.getD input (offset + 1 + 1) 0) % 256 < 256 := Nat.mod_lt _ (by omega)
      rw [Nat.shiftLeft_eq]
      omega
    have hno : (u16le input (offset + 1) + offset) % 2 ^ 32 =
        u16le input (offset + 1) + offset := Nat.mod_eq_of_lt (by omega)
    simp only [hno]
    by_cases hlt : u16le input (offset + 1) + offset < len
    · rw [if_pos hlt]
      have hpos : u16le input (offset + 1) ≠ 0 := hnz offset h1
      exact ih _ _ hlt (by omega)
    · rw [if_neg hlt]; rfl

/-- C5 amended: the frame-counting walks of `add_data` and
`get_pic_num` terminate on every input in which every 16-bit length
field read below the stream length is nonzero (fuel `len + 1` always
suffices, as the offset then strictly increases); with a zero length
field at a visited offset the loops run forever (see the
counterexample). -/
theorem frame_walk_termination_amended (input : List Nat) (len : Nat)
    (hlen : len + 0x10000 < 2 ^ 32)
    (hnz : ∀ o, o < len → u16le input (o + 1) ≠ 0) :
    (divoom_image_decode_add_data_walk input len (len + 1)).isSome = true ∧
    (divoom_image_decode_decode_get_pic_num input len (len + 1)).isSome = true := by
  constructor
  · unfold divoom_image_decode_add_data_walk
    by_cases h0 : len < 1
    · rw [if_pos h0]; rfl
    · rw [if_neg h0]
      exact addDataWalkAux_terminates input len hlen hnz (len + 1) 0 0 (by omega) (by omega)
  · unfold divoom_image_decode_decode_get_pic_num
    by_cases h0 : len = 0
    · rw [if_pos h0]; rfl
    · rw [if_neg h0]
      exact picNumWalkAux_terminates input len hlen hnz (len + 1) 0 0 (by omega) (by omega)

/-- Witness for the amended termination statement on the two-frame-like
stream `AA 02 01`. -/
theorem frame_walk_termination_amended_witness :
    (2 + 0x10000 < 2 ^ 32 ∧ ∀ o, o < 2 → u16le [0xaa, 2, 1] (o + 1) ≠ 0) ∧
    (divoom_image_decode_add_data_walk [0xaa, 2, 1] 2 (2 + 1)).isSome = true ∧
    (divoom_image_decode_decode_get_pic_num [0xaa, 2, 1] 2 (2 + 1)).isSome = true :=
  ⟨⟨by decide, by decide⟩,
    frame_walk_termination_amended [0xaa, 2, 1] 2 (by decide) (by decide)⟩

/-- Frame-iteration state of a decoder handle: `len` is the field at
offset 4, `cursor` the field at offset 0xc, `data` the input pointer at
offset 0x10 of the C handle. -/
structure DivoomIter where
  len : Nat
  cursor : Nat
  data : List Nat
deriving DecidableEq

/-- `divoom_image_decode_get_pic_data` (lines 3213-3236): if the cursor
is below the length, report the frame's offset, declared 16-bit length
and delay and advance the cursor by that declared length (a `uint`
store); otherwise fail.  The result is (frame offset, declared length,
new state). -/
def divoom_image_decode_get_pic_data (s : DivoomIter) : Option (Nat × Nat × DivoomIter) :=
  if s.cursor < s.len then
    let frameLength := u16le s.data (s.cursor + 1)
    some (s.cursor, frameLength, ⟨s.len, (s.cursor + frameLength) % 2 ^ 32, s.data⟩)
  else none

/-- C4 counterexample: an 8-byte stream whose single frame declares
length 100.  `get_pic_data` succeeds and moves the cursor to 100, past
the stream length 8, refuting "the new cursor ... never exceeds the
stream length ... for every input stream including frames whose declared
length field ... exceeds the remaining bytes". -/
theorem get_pic_data_cursor_overruns :
    ((divoom_image_decode_get_pic_data ⟨8, 0, [0xaa, 100, 0, 0, 0, 0, 0, 0]⟩).map
        (fun r => r.2.2.cursor)) = some 100 ∧ ¬(100 ≤ 8) := by
  constructor <;> decide

/-- C4 amended: a successful `get_pic_data` step requires `cursor < len`
on entry, and the new cursor equals the old cursor plus the frame's
declared 16-bit length (mod 2^32); the cursor therefore strictly
increases exactly when that length field is nonzero (given no 32-bit
wrap), and nothing bounds the new cursor by the stream length — a
declared length of 0 leaves the cursor unchanged and a declared length
beyond the remaining bytes pushes the cursor past `len`. -/
theorem get_pic_data_cursor_step_amended (s : DivoomIter) (off flen : Nat)
    (s2 : DivoomIter)
    (h : divoom_image_decode_get_pic_data s = some (off, flen, s2)) :
    s.cursor < s.len ∧ off = s.cursor ∧ flen = u16le s.data (s.cursor + 1) ∧
    s2.cursor = (s.cursor + flen) % 2 ^ 32 ∧
    (s.cursor + flen < 2 ^ 32 → 0 < flen → s.cursor < s2.cursor) := by
  unfold divoom_image_decode_get_pic_data at h
  by_cases hc : s.cursor < s.len
  · rw [if_pos hc] at h
    simp only [Option.some.injEq, Prod.mk.injEq] at h
    obtain ⟨h1, h2, h3⟩ := h
    refine ⟨hc, h1.symm, h2.symm, ?_, ?_⟩
    · rw [← h3, ← h2]
    · intro hw hp
      rw [← h3]
      show s.cursor < (s.cursor + u16le s.data (s.cursor + 1)) % 2 ^ 32
      rw [h2, Nat.mod_eq_of_lt hw]
      omega
  · rw [if_neg hc] at h
    exact absurd h (by simp)

/-- Witness for the amended cursor-step statement on a well-formed
10-byte single-frame stream of declared length 10. -/
theorem get_pic_data_cursor_step_amended_witness :
    divoom_image_decode_get_pic_data ⟨10, 0, [0xaa, 10, 0, 0, 0, 0, 0, 0, 0, 0]⟩ =
      some (0, 10, ⟨10, 10, [0xaa, 10, 0, 0, 0, 0, 0, 0, 0, 0]⟩) ∧
    (0 < 10 ∧ 0 = 0 ∧ 10 = u16le [0xaa, 10, 0, 0, 0, 0, 0, 0, 0, 0] 1 ∧
      10 = (0 + 10) % 2 ^ 32 ∧ (0 + 10 < 2 ^ 32 → 0 < 10 → 0 < 10)) := by
  constructor
  · decide
  · have h := get_pic_data_cursor_step_amended ⟨10, 0, [0xaa, 10, 0, 0, 0, 0, 0, 0, 0, 0]⟩
      0 10 ⟨10, 10, [0xaa, 10, 0, 0, 0, 0, 0, 0, 0, 0]⟩ (by decide)
    exact ⟨h.1, h.2.1.symm ▸ rfl, by decide, by decide, fun _ _ => by decide⟩

/-- Byte reads are always below 256. -/
theorem byteAt_lt (l : List Nat) (i : Nat) : byteAt l i < 256 :=
  Nat.mod_lt _ (by omega)

/-- 16-bit reads are always below 0x10000. -/
theorem u16le_lt (l : List Nat) (i : Nat) : u16le l i < 0x10000 := by
  unfold u16le
  have h1 := byteAt_lt l i
  have h2 := byteAt_lt l (i + 1)
  rw [Nat.shiftLeft_eq]
  omega

/-- Palette store of one decoder handle: `count` is the `ushort` at
offset 0, `capacity` the `ushort` at offset 2 (`decoderState[1]`), and
`palette` the buffer pointer at byte offset 0x20 (`decoderState + 0x10`
as a `ushort` index), `none` when the pointer is null. -/
structure DivoomDecoder where
  count : Nat
  capacity : Nat
  palette : Option (Nat → Nat)

/-- A freshly `malloc`'ed palette buffer into which the first `n` bytes
of the old buffer are `memcpy`'d; the allocation beyond the copy is
modeled zero-filled. -/
def reallocCopy (old : Nat → Nat) (n : Nat) : Nat → Nat :=
  fun i => if i < n then old i else 0

/-- Write one 3-byte RGB entry at byte position `pos`. -/
def writeRgbEntry (b : Nat → Nat) (pos r g bl : Nat) : Nat → Nat :=
  bufWrite (bufWrite (bufWrite b pos r) (pos + 1) g) (pos + 2) bl

/-- Palette-rebuild copy loop shared by the reset paths: entry `j < n`
is written at entry slot `j` from the frame bytes at `src + 3j`. -/
def paletteResetCopy (b : Nat → Nat) (f : List Nat) (src : Nat) : Nat → (Nat → Nat)
  | 0 => b
  | n + 1 =>
    writeRgbEntry (paletteResetCopy b f src n) (3 * n)
      (byteAt f (src + 3 * n)) (byteAt f (src + 3 * n + 1)) (byteAt f (src + 3 * n + 2))

/-- Palette-extension append loop shared by the continuation paths:
entry `j < n` from the frame bytes at `src + 3j` is written at entry
slot `(cnt + j) &&& 0xffff` (the C code stores each slot index through a
`ushort`). -/
def paletteAppendCopy (b : Nat → Nat) (f : List Nat) (src cnt : Nat) : Nat → (Nat → Nat)
  | 0 => b
  | n + 1 =>
    writeRgbEntry (paletteAppendCopy b f src cnt n) (3 * ((cnt + n) &&& 0xffff))
      (byteAt f (src + 3 * n)) (byteAt f (src + 3 * n + 1)) (byteAt f (src + 3 * n + 2))

/-- The bit-extraction ladder inlined into every block decoder's pixel
loop (e.g. lines 1778-1790): read `bpi` bits at bit cursor `cursor` of
the bitstream that starts `base` bytes into the frame. -/
def inlineDotRead (f : List Nat) (base cursor bpi : Nat) : Nat :=
  let bitOffset := cursor &&& 7
  let byteOff := cursor >>> 3
  let total := bitOffset + bpi
  if total < 9 then
    ((byteAt f (byteOff + base)) <<< ((8 - total) &&& 0x1f) &&& 0xff) >>>
      ((8 - total + bitOffset) &&& 0x1f)
  else
    (((byteAt f (byteOff + base + 1)) <<< ((0x10 - total) &&& 0x1f) &&& 0xff) >>>
        ((0x10 - total) &&& 0x1f)) <<< ((8 - bitOffset) &&& 0x1f) |||
      ((byteAt f (byteOff + base)) >>> bitOffset)

/-- Output raster of an indexed block decode: pixel `j` is read from the
palette buffer at 3 times the 16-bit-masked bit-packed index; the C loop
accumulates the bit cursor by `bpi` per pixel, i.e. pixel `j` starts at
bit `j * bpi`. -/
def blockPixels (f : List Nat) (base bpi : Nat) (buf : Nat → Nat) : Nat → Nat × Nat × Nat :=
  fun j =>
    let idx := (inlineDotRead f base (j * bpi) bpi) &&& 0xffff
    (buf (3 * idx), buf (3 * idx + 1), buf (3 * idx + 2))

/-- Output raster of a raw-truecolor decode: a straight 3-byte-per-pixel
copy of the frame payload starting at `base`. -/
def rawPixels (f : List Nat) (base : Nat) : Nat → Nat × Nat × Nat :=
  fun j => (byteAt f (base + 3 * j), byteAt f (base + 3 * j + 1), byteAt f (base + 3 * j + 2))

/-- `divoom_image_decode_decode_one` (lines 1515-1805), the 16x16 block
decoder.  Result: new decoder state, pixel raster and `*bytesConsumed`;
`none` on the `printf`-and-return-0 error paths.  Kind byte 0 rebuilds
the palette, kind byte 1 is the palette continuation, which *rejects*
the frame when `count + new` exceeds the capacity (line 1704). -/
def divoom_image_decode_decode_one (s : DivoomDecoder) (f : List Nat) :
    Option (DivoomDecoder × (Nat → Nat × Nat × Nat) × Nat) :=
  if byteAt f 0 ≠ 0xaa then none
  else if 1 < byteAt f 5 then none
  else if byteAt f 5 = 0 then
    let counter := if byteAt f 6 = 0 then 0x100 else byteAt f 6
    let doubled := if 0xff < counter <<< 1 then 0x100 else counter <<< 1
    let capacity := if 0xf < counter then doubled else 0x40
    let buf := paletteResetCopy (fun _ => 0) f 7 counter
    let bpi := gdivoom_image_bits_table counter
    let off := counter * 3 + 7
    some (⟨counter &&& 0xffff, capacity, some buf⟩, blockPixels f off bpi buf, off + bpi * 0x20)
  else
    match s.palette with
    | none => none
    | some old =>
      let nw := byteAt f 6
      if s.capacity < s.count + nw then none
      else
        let buf := paletteAppendCopy old f 7 s.count nw
        let count2 := if nw = 0 then s.count else (s.count + nw) &&& 0xffff
        let bpi := gdivoom_image_bits_table ((if nw = 0 then s.count else s.count + nw) &&& 0xffff)
        let off := nw * 3 + 7
        some (⟨count2, s.capacity, some buf⟩, blockPixels f off bpi buf, off + bpi * 0x20)

/-- `divoom_image_decode_decode_one_64` (lines 2130-2485), the 64x64
frame decoder.  Kinds 0x0B/0x0E (and high-bit variants) are raw
truecolor and free-and-null the palette pointer; 0x0C/0x0F rebuild the
palette; 0x0D/0x10 extend it, reallocating to `count + new + 0x100`
entries when `count + new` exceeds the capacity.  The decompiled reset
path reads its bits-per-index through a stale local (`currentPaletteOffset`
at line 2316); as in the sibling decoders it is the palette count, which
is how it is modeled here. -/
def divoom_image_decode_decode_one_64 (s : DivoomDecoder) (f : List Nat) :
    Option (DivoomDecoder × (Nat → Nat × Nat × Nat) × Nat) :=
  if byteAt f 0 ≠ 0xaa then none
  else
    let k := byteAt f 5
    if ¬(0xb ≤ k &&& 0x7f ∧ k &&& 0x7f ≤ 0x10) then none
    else if k = 0xb ∨ k = 0xe ∨ k = 0x8b ∨ k = 0x8e then
      some (⟨s.count, s.capacity, none⟩, rawPixels f 8, 0x18 * 0x200 + 8)
    else if k = 0xd ∨ k = 0x10 ∨ k = 0x8d ∨ k = 0x90 then
      match s.palette with
      | none => none
      | some old =>
        let nw := u16le f 6
        let base := if s.capacity < s.count + nw then reallocCopy old (s.count * 3) else old
        let cap2 := if s.capacity < s.count + nw then (s.count + nw + 0x100) &&& 0xffff
          else s.capacity
        let buf := paletteAppendCopy base f 8 s.count nw
        let count2 := if nw = 0 then s.count else (s.count + nw) &&& 0xffff
        let bpi := gdivoom_image_bits_table ((if nw = 0 then s.count else s.count + nw) &&& 0xffff)
        let off := nw * 3 + 8
        some (⟨count2, cap2, some buf⟩, blockPixels f (off &&& 0xffff) bpi buf,
          bpi * 0x200 + (off &&& 0xffff))
    else
      let cnt := u16le f 6
      let alloc := if cnt < 0x81 then 0x80 else cnt
      let keep := match s.palette with
        | none => false
        | some _ => decide (s.capacity = alloc)
      let base : Nat → Nat := if keep then (s.palette.getD fun _ => 0) else fun _ => 0
      let cap2 := if keep then s.capacity else alloc &&& 0xffff
      let buf := paletteResetCopy base f 8 cnt
      let bpi := gdivoom_image_bits_table cnt
      let off := cnt * 3 + 8
      some (⟨cnt, cap2, some buf⟩, blockPixels f (off &&& 0xffff) bpi buf,
        bpi * 0x200 + (off &&& 0xffff))

/-- `divoom_image_decode_decode_one_big` (lines 2489-2817), the 32x32
frame decoder.  Kind (masked) 2 is raw truecolor and frees-and-nulls the
palette; kind 4 is the palette continuation with the
`count + new + 0x100` reallocation; the remaining accepted kind 3 falls
into the palette-rebuild path (lines 2697-2810), overwriting the palette
from entry 0 and setting `count` to the frame's entry count. -/
def divoom_image_decode_decode_one_big (s : DivoomDecoder) (f : List Nat) :
    Option (DivoomDecoder × (Nat → Nat × Nat × Nat) × Nat) :=
  if byteAt f 0 ≠ 0xaa then none
  else
    let k := byteAt f 5
    if ¬(k &&& 0x7e = 2 ∨ k &&& 0x7f = 4) then none
    else if k &&& 0x7f = 4 then
      match s.palette with
      | none => none
      | some old =>
        let nw := u16le f 6
        let base := if s.capacity < s.count + nw then reallocCopy old (s.count * 3) else old
        let cap2 := if s.capacity < s.count + nw then (s.count + nw + 0x100) &&& 0xffff
          else s.capacity
        let buf := paletteAppendCopy base f 8 s.count nw
        let count2 := if nw = 0 then s.count else (s.count + nw) &&& 0xffff
        let bpi := gdivoom_image_bits_table ((if nw = 0 then s.count else s.count + nw) &&& 0xffff)
        let off := nw * 3 + 8
        some (⟨count2, cap2, some buf⟩, blockPixels f (off &&& 0xffff) bpi buf,
          bpi * 0x80 + (off &&& 0xffff))
    else if k &&& 0x7f = 2 then
      some (⟨s.count, s.capacity, none⟩, rawPixels f 8, 0x18 * 0x80 + 8)
    else
      let cnt := u16le f 6
      let alloc := if cnt < 0x80 then 0x100 else cnt + 0x100
      let keep := match s.palette with
        | none => false
        | some _ => decide (s.capacity = alloc)
      let base : Nat → Nat := if keep then (s.palette.getD fun _ => 0) else fun _ => 0
      let cap2 := if keep then s.capacity else alloc &&& 0xffff
      let buf := paletteResetCopy base f 8 cnt
      let bpi := gdivoom_image_bits_table cnt
      let off := cnt * 3 + 8
      some (⟨cnt, cap2, some buf⟩, blockPixels f (off &&& 0xffff) bpi buf,
        bpi * 0x80 + (off &&& 0xffff))

/-- `divoom_image_decode_decode_one_128` (lines 1809-2126), the 128x128
frame decoder.  Kind (masked) 0x13 extends the palette with the
`count + new + 0x100` reallocation; 0x11 is raw truecolor
(free-and-null); the remaining accepted kinds rebuild the palette. -/
def divoom_image_decode_decode_one_128 (s : DivoomDecoder) (f : List Nat) :
    Option (DivoomDecoder × (Nat → Nat × Nat × Nat) × Nat) :=
  if byteAt f 0 ≠ 0xaa then none
  else
    let k := byteAt f 5
    if ¬(k &&& 0x7d = 0x11 ∨ k &&& 0x7f = 0x14) then none
    else if k &&& 0x7f = 0x13 then
      match s.palette with
      | none => none
      | some old =>
        let nw := u16le f 6
        let base := if s.capacity < s.count + nw then reallocCopy old (s.count * 3) else old
        let cap2 := if s.capacity < s.count + nw then (s.count + nw + 0x100) &&& 0xffff
          else s.capacity
        let buf := paletteAppendCopy base f 8 s.count nw
        let count2 := if nw = 0 then s.count else (s.count + nw) &&& 0xffff
        let bpi := gdivoom_image_bits_table ((if nw = 0 then s.count else s.count + nw) &&& 0xffff)
        let off := nw * 3 + 8
        some (⟨count2, cap2, some buf⟩, blockPixels f (off &&& 0xffff) bpi buf,
          bpi * 0x800 + (off &&& 0xffff))
    else if k &&& 0x7f = 0x11 then
      some (⟨s.count, s.capacity, none⟩, rawPixels f 8, 0x18 * 0x800 + 8)
    else
      let cnt := u16le f 6
      let alloc := if cnt < 0x81 then 0x80 else cnt
      let keep := match s.palette with
        | none => false
        | some _ => decide (s.capacity = alloc)
      let base : Nat → Nat := if keep then (s.palette.getD fun _ => 0) else fun _ => 0
      let cap2 := if keep then s.capacity else alloc &&& 0xffff
      let buf := paletteResetCopy base f 8 cnt
      let bpi := gdivoom_image_bits_table cnt
      let off := cnt * 3 + 8
      some (⟨cnt, cap2, some buf⟩, blockPixels f (off &&& 0xffff) bpi buf,
        bpi * 0x800 + (off &&& 0xffff))

/-- Dropping `n` bytes shifts `byteAt` reads by `n`. -/
theorem byteAt_drop (l : List Nat) (n i : Nat) : byteAt (l.drop n) i = byteAt l (n + i) := by
  unfold byteAt
  rw [List.getD_eq_getElem?_getD, List.getD_eq_getElem?_getD, List.getElem?_drop]

/-- The inlined pixel-loop bit ladder of the block decoders computes
exactly `divoom_image_get_dot_info_ex` on the bitstream that starts
`base` bytes into the frame. -/
theorem inlineDotRead_eq_dot_info_ex (f : List Nat) (base c w : Nat) :
    inlineDotRead f base c w = divoom_image_get_dot_info_ex (f.drop base) c w := by
  unfold inlineDotRead divoom_image_get_dot_info_ex
  have e1 : base + c >>> 3 = c >>> 3 + base := by omega
  have e2 : base + (c >>> 3 + 1) = c >>> 3 + base + 1 := by omega
  rw [byteAt_drop, byteAt_drop, e1, e2]
  by_cases h : 8 < (c &&& 7) + w
  · rw [if_neg (by omega), if_pos h]
  · rw [if_pos (by omega), if_neg h]

/-- Reading back a 3-byte entry write. -/
theorem writeRgbEntry_read (b : Nat → Nat) (pos r g bl i : Nat) :
    writeRgbEntry b pos r g bl i =
      if i = pos + 2 then bl % 256
      else if i = pos + 1 then g % 256
      else if i = pos then r % 256
      else b i := rfl

/-- `n &&& 0xffff = n` for 16-bit values. -/
theorem land_ffff_of_le {n : Nat} (h : n ≤ 0xffff) : n &&& 0xffff = n := by
  have h16 : (0xffff : Nat) = 2 ^ 16 - 1 := by norm_num
  rw [h16, Nat.and_pow_two_sub_one_eq_mod, Nat.mod_eq_of_lt (by omega)]

/-- The palette-extension append loop does not touch bytes below the
existing `cnt` entries, as long as the 16-bit slot index cannot wrap. -/
theorem paletteAppendCopy_preserved (f : List Nat) (src cnt : Nat) :
    ∀ n (b : Nat → Nat) i, cnt + n ≤ 0x10000 → i < 3 * cnt →
      paletteAppendCopy b f src cnt n i = b i := by
  intro n
  induction n with
  | zero => intro b i _ _; rfl
  | succ m ih =>
    intro b i hle hi
    unfold paletteAppendCopy
    rw [writeRgbEntry_read, land_ffff_of_le (by omega)]
    rw [if_neg (by omega), if_neg (by omega), if_neg (by omega)]
    exact ih b i (by omega) hi

/-- Reading back the `k`-th appended entry: it carries the frame's bytes
at `src + 3k`. -/
theorem paletteAppendCopy_entry (f : List Nat) (src cnt : Nat) :
    ∀ n (b : Nat → Nat) k c, cnt + n ≤ 0x10000 → k < n → c < 3 →
      paletteAppendCopy b f src cnt n (3 * (cnt + k) + c) = byteAt f (src + 3 * k + c) := by
  intro n
  induction n with
  | zero => intro b k c _ hk _; omega
  | succ m ih =>
    intro b k c hle hk hc
    unfold paletteAppendCopy
    rw [writeRgbEntry_read, land_ffff_of_le (by omega)]
    by_cases hkm : k = m
    · subst hkm
      interval_cases c
      · rw [if_neg (by omega), if_neg (by omega), if_pos (by omega)]
        rw [Nat.mod_eq_of_lt (byteAt_lt f (src + 3 * k))]
        congr 1
      · rw [if_neg (by omega), if_pos (by omega)]
        exact Nat.mod_eq_of_lt (byteAt_lt f (src + 3 * k + 1))
      · rw [if_pos (by omega)]
        exact Nat.mod_eq_of_lt (byteAt_lt f (src + 3 * k + 2))
    · rw [if_neg (by omega), if_neg (by omega), if_neg (by omega)]
      exact ih b k c (by omega) (by omega) hc

/-- Reading back the `k`-th entry written by the palette-rebuild copy. -/
theorem paletteResetCopy_entry (f : List Nat) (src : Nat) :
    ∀ n (b : Nat → Nat) k c, k < n → c < 3 →
      paletteResetCopy b f src n (3 * k + c) = byteAt f (src + 3 * k + c) := by
  intro n
  induction n with
  | zero => intro b k c hk _; omega
  | succ m ih =>
    intro b k c hk hc
    unfold paletteResetCopy
    rw [writeRgbEntry_read]
    by_cases hkm : k = m
    · subst hkm
      interval_cases c
      · rw [if_neg (by omega), if_neg (by omega), if_pos (by omega)]
        rw [Nat.mod_eq_of_lt (byteAt_lt f (src + 3 * k))]
        congr 1
      · rw [if_neg (by omega), if_pos (by omega)]
        exact Nat.mod_eq_of_lt (byteAt_lt f (src + 3 * k + 1))
      · rw [if_pos (by omega)]
        exact Nat.mod_eq_of_lt (byteAt_lt f (src + 3 * k + 2))
    · rw [if_neg (by omega), if_neg (by omega), if_neg (by omega)]
      exact ih b k c (by omega) hc

set_option maxRecDepth 10000 in
theorem kind64_extend_cases : ∀ k < 256, (k &&& 0x7f = 0xd ∨ k &&& 0x7f = 0x10) →
    (0xb ≤ k &&& 0x7f ∧ k &&& 0x7f ≤ 0x10) ∧
    ¬(k = 0xb ∨ k = 0xe ∨ k = 0x8b ∨ k = 0x8e) ∧
    (k = 0xd ∨ k = 0x10 ∨ k = 0x8d ∨ k = 0x90) := by decide

set_option maxRecDepth 10000 in
theorem kind64_raw_cases : ∀ k < 256, (k &&& 0x7f = 0xb ∨ k &&& 0x7f = 0xe) →
    (0xb ≤ k &&& 0x7f ∧ k &&& 0x7f ≤ 0x10) ∧
    (k = 0xb ∨ k = 0xe ∨ k = 0x8b ∨ k = 0x8e) := by decide

set_option maxRecDepth 10000 in
theorem kindbig_kind3_cases : ∀ k < 256, k &&& 0x7f = 3 →
    k &&& 0x7e = 2 ∧ k &&& 0x7f ≠ 4 ∧ k &&& 0x7f ≠ 2 := by decide

set_option maxRecDepth 10000 in
theorem kindbig_kind2_cases : ∀ k < 256, k &&& 0x7f = 2 →
    k &&& 0x7e = 2 ∧ k &&& 0x7f ≠ 4 := by decide

set_option maxRecDepth 10000 in
theorem kind128_extend_cases : ∀ k < 256, k &&& 0x7f = 0x13 → k &&& 0x7d = 0x11 := by decide

/-- The palette-continuation behaviour the spec describes for the
realloc case: on success the count grows by the frame's entry count, the
capacity becomes `count + new + 0x100`, the old entries are preserved,
the new RGB triples are appended after them, and the count stays within
the capacity. -/
def ExtendReallocOk
    (dec : DivoomDecoder → List Nat → Option (DivoomDecoder × (Nat → Nat × Nat × Nat) × Nat))
    (s : DivoomDecoder) (old : Nat → Nat) (f : List Nat) : Prop :=
  ∃ r, dec s f = some r ∧
    r.1.count = s.count + u16le f 6 ∧
    r.1.capacity = s.count + u16le f 6 + 0x100 ∧
    ∃ buf, r.1.palette = some buf ∧
      (∀ i, i < 3 * s.count → buf i = old i) ∧
      (∀ k c, k < u16le f 6 → c < 3 → buf (3 * (s.count + k) + c) = byteAt f (8 + 3 * k + c)) ∧
      r.1.count ≤ r.1.capacity

/-- C3 counterexample: a kind-0x01 (16x16 palette continuation) frame
declaring 2 new entries, decoded on a handle with `count = 1` and
`capacity = 2`.  `count + new = 3` exceeds the capacity, and
`decode_one` rejects the frame (the error path at line 1704) instead of
reallocating, refuting the claim that every palette-continuation kind —
including 0x01 — reallocates to `count + new + 0x100` entries. -/
theorem decode_one_overflow_rejects_not_reallocs :
    (divoom_image_decode_decode_one ⟨1, 2, some (fun _ => 0)⟩
      [0xaa, 0, 0, 0, 0, 1, 2]).isNone = true := by decide

/-- C3 amended: when `count + new` exceeds the capacity, the
palette-continuation kinds 0x0D/0x10 (64x64), 0x04 (32x32) and 0x13
(128x128) reallocate to `count + new + 0x100` entries (a 16-bit store,
hence the no-overflow hypothesis), preserving the existing entries and
appending the frame's RGB triples, after which `count ≤ capacity` holds;
kind 0x01 (16x16) instead rejects such a frame with an error, and kind
0x03 rebuilds the palette rather than extending it. -/
theorem palette_realloc_amended (s : DivoomDecoder) (old : Nat → Nat)
    (f16 f64 fbig f128 : List Nat) (hp : s.palette = some old)
    (hm16 : byteAt f16 0 = 0xaa) (hk16 : byteAt f16 5 = 1)
    (hov16 : s.capacity < s.count + byteAt f16 6)
    (hm64 : byteAt f64 0 = 0xaa)
    (hk64 : byteAt f64 5 &&& 0x7f = 0xd ∨ byteAt f64 5 &&& 0x7f = 0x10)
    (hov64 : s.capacity < s.count + u16le f64 6)
    (hnz64 : 0 < u16le f64 6) (hfit64 : s.count + u16le f64 6 + 0x100 ≤ 0xffff)
    (hmb : byteAt fbig 0 = 0xaa) (hkb : byteAt fbig 5 &&& 0x7f = 4)
    (hovb : s.capacity < s.count + u16le fbig 6)
    (hnzb : 0 < u16le fbig 6) (hfitb : s.count + u16le fbig 6 + 0x100 ≤ 0xffff)
    (hm128 : byteAt f128 0 = 0xaa) (hk128 : byteAt f128 5 &&& 0x7f = 0x13)
    (hov128 : s.capacity < s.count + u16le f128 6)
    (hnz128 : 0 < u16le f128 6) (hfit128 : s.count + u16le f128 6 + 0x100 ≤ 0xffff) :
    (divoom_image_decode_decode_one s f16).isNone = true ∧
    ExtendReallocOk divoom_image_decode_decode_one_64 s old f64 ∧
    ExtendReallocOk divoom_image_decode_decode_one_big s old fbig ∧
    ExtendReallocOk divoom_image_decode_decode_one_128 s old f128 := by
  refine ⟨?_, ?_, ?_, ?_⟩
  · unfold divoom_image_decode_decode_one
    rw [hm16, hk16, hp]
    simp [hov16]
  · obtain ⟨hg, hnr, hcase⟩ := kind64_extend_cases _ (byteAt_lt f64 5) hk64
    unfold ExtendReallocOk divoom_image_decode_decode_one_64
    simp only [hm64, hp, hg.1, hg.2, hnr, hcase, hov64, and_self, not_true_eq_false,
      ne_eq, not_false_eq_true, if_true, if_false, ite_true, ite_false, eq_self_iff_true,
      Nat.pos_iff_ne_zero.mp hnz64, or_false, false_or, not_not]
    refine ⟨_, rfl, ?_, ?_, ⟨_, rfl, ?_, ?_, ?_⟩⟩
    · exact land_ffff_of_le (by omega)
    · exact land_ffff_of_le (by omega)
    · intro i hi
      rw [paletteAppendCopy_preserved f64 8 s.count _ _ i (by omega) hi]
      unfold reallocCopy
      rw [if_pos (by omega : i < s.count * 3)]
    · intro k c hk hc
      exact paletteAppendCopy_entry f64 8 s.count _ _ k c (by omega) hk hc
    · simp only [land_ffff_of_le (show s.count + u16le f64 6 ≤ 0xffff by omega),
        land_ffff_of_le (show s.count + u16le f64 6 + 0x100 ≤ 0xffff by omega)]
      omega
  · unfold ExtendReallocOk divoom_image_decode_decode_one_big
    simp only [hmb, hp, hkb, hovb, and_self, not_true_eq_false, ne_eq, not_false_eq_true,
      if_true, if_false, ite_true, ite_false, eq_self_iff_true,
      Nat.pos_iff_ne_zero.mp hnzb, or_true, true_or, not_true, not_not]
    refine ⟨_, rfl, ?_, ?_, ⟨_, rfl, ?_, ?_, ?_⟩⟩
    · exact land_ffff_of_le (by omega)
    · exact land_ffff_of_le (by omega)
    · intro i hi
      rw [paletteAppendCopy_preserved fbig 8 s.count _ _ i (by omega) hi]
      unfold reallocCopy
      rw [if_pos (by omega : i < s.count * 3)]
    · intro k c hk hc
      exact paletteAppendCopy_entry fbig 8 s.count _ _ k c (by omega) hk hc
    · simp only [land_ffff_of_le (show s.count + u16le fbig 6 ≤ 0xffff by omega),
        land_ffff_of_le (show s.count + u16le fbig 6 + 0x100 ≤ 0xffff by omega)]
      omega
  · have h125 := kind128_extend_cases _ (byteAt_lt f128 5) hk128
    unfold ExtendReallocOk divoom_image_decode_decode_one_128
    simp only [hm128, hp, hk128, h125, hov128, and_self, not_true_eq_false, ne_eq,
      not_false_eq_true, if_true, if_false, ite_true, ite_false, eq_self_iff_true,
      Nat.pos_iff_ne_zero.mp hnz128, or_true, true_or, or_false, false_or, not_true, not_not]
    refine ⟨_, rfl, ?_, ?_, ⟨_, rfl, ?_, ?_, ?_⟩⟩
    · exact land_ffff_of_le (by omega)
    · exact land_ffff_of_le (by omega)
    · intro i hi
      rw [paletteAppendCopy_preserved f128 8 s.count _ _ i (by omega) hi]
      unfold reallocCopy
      rw [if_pos (by omega : i < s.count * 3)]
    · intro k c hk hc
      exact paletteAppendCopy_entry f128 8 s.count _ _ k c (by omega) hk hc
    · simp only [land_ffff_of_le (show s.count + u16le f128 6 ≤ 0xffff by omega),
        land_ffff_of_le (show s.count + u16le f128 6 + 0x100 ≤ 0xffff by omega)]
      omega

/-- A concrete one-entry palette handle (count 1, capacity 2, entry 0 =
(5,6,7)) used to witness the palette theorems. -/
def c3WitnessOld : Nat → Nat := writeRgbEntry (fun _ => 0) 0 5 6 7

def c3WitnessState : DivoomDecoder := ⟨1, 2, some c3WitnessOld⟩

/-- Witness for the amended reallocation statement: two new entries on a
full two-entry-capacity palette, for each of the four frame decoders. -/
theorem palette_realloc_amended_witness :
    c3WitnessState.palette = some c3WitnessOld ∧
    ((divoom_image_decode_decode_one c3WitnessState [0xaa, 0, 0, 0, 0, 1, 2]).isNone = true ∧
      ExtendReallocOk divoom_image_decode_decode_one_64 c3WitnessState c3WitnessOld
        [0xaa, 0, 0, 0, 0, 0xd, 2, 0] ∧
      ExtendReallocOk divoom_image_decode_decode_one_big c3WitnessState c3WitnessOld
        [0xaa, 0, 0, 0, 0, 4, 2, 0] ∧
      ExtendReallocOk divoom_image_decode_decode_one_128 c3WitnessState c3WitnessOld
        [0xaa, 0, 0, 0, 0, 0x13, 2, 0]) :=
  ⟨rfl, palette_realloc_amended c3WitnessState c3WitnessOld _ _ _ _ rfl
    (by decide) (by decide) (by decide)
    (by decide) (by decide) (by decide) (by decide) (by decide)
    (by decide) (by decide) (by decide) (by decide) (by decide)
    (by decide) (by decide) (by decide) (by decide) (by decide)⟩

/-- C9 counterexample: a kind-0x03 frame with one entry (9,9,9) decoded
on a handle holding one entry (5,6,7) at capacity 0x100.  Afterwards the
count is 1 — not the claimed 1 + 1 — and entry 0 now reads 9: the
existing entry was overwritten, not preserved.  Kind 0x03 rebuilds the
palette; the extend behaviour belongs to kind 0x04. -/
theorem big_kind3_overwrites_instead_of_extending :
    ((divoom_image_decode_decode_one_big ⟨1, 0x100, some c3WitnessOld⟩
        [0xaa, 0, 0, 0, 0, 3, 1, 0, 9, 9, 9]).map (fun r => r.1.count)) = some 1 ∧
    (1 : Nat) ≠ 1 + 1 ∧
    ((divoom_image_decode_decode_one_big ⟨1, 0x100, some c3WitnessOld⟩
        [0xaa, 0, 0, 0, 0, 3, 1, 0, 9, 9, 9]).map
      (fun r => (r.1.palette.getD (fun _ => 0)) 0)) = some 9 ∧
    c3WitnessOld 0 = 5 := by
  refine ⟨by decide, by decide, by decide, by decide⟩

/-- C9 amended: in `decode_one_big`, a kind-0x03 frame performs a
palette rebuild — the frame's entries are written from the start of the
buffer and `count` becomes the frame's entry count — while a kind-0x04
frame performs the extend the claim describes: existing entries
preserved, new triples appended, `count` grown by the frame's entry
count (stated here for the no-reallocation case `count + new ≤
capacity`; the reallocation case is the subject of the reallocation
theorem). -/
theorem big_kind3_rebuilds_kind4_extends (s : DivoomDecoder) (old : Nat → Nat)
    (f3 f4 : List Nat) (hp : s.palette = some old)
    (hm3 : byteAt f3 0 = 0xaa) (hk3 : byteAt f3 5 &&& 0x7f = 3)
    (hm4 : byteAt f4 0 = 0xaa) (hk4 : byteAt f4 5 &&& 0x7f = 4)
    (hnz4 : 0 < u16le f4 6)
    (hcap4 : s.count + u16le f4 6 ≤ s.capacity) (hcap16 : s.capacity ≤ 0xffff) :
    (∃ r, divoom_image_decode_decode_one_big s f3 = some r ∧
       r.1.count = u16le f3 6 ∧
       ∃ buf, r.1.palette = some buf ∧
         ∀ k c, k < u16le f3 6 → c < 3 → buf (3 * k + c) = byteAt f3 (8 + 3 * k + c)) ∧
    (∃ r, divoom_image_decode_decode_one_big s f4 = some r ∧
       r.1.count = s.count + u16le f4 6 ∧ r.1.capacity = s.capacity ∧
       ∃ buf, r.1.palette = some buf ∧
         (∀ i, i < 3 * s.count → buf i = old i) ∧
         (∀ k c, k < u16le f4 6 → c < 3 →
           buf (3 * (s.count + k) + c) = byteAt f4 (8 + 3 * k + c))) := by
  constructor
  · obtain ⟨hg, hn4, hn2⟩ := kindbig_kind3_cases _ (byteAt_lt f3 5) hk3
    unfold divoom_image_decode_decode_one_big
    simp only [hm3, hp, hg, hn4, hn2, and_self, not_true_eq_false, ne_eq,
      not_false_eq_true, if_true, if_false, ite_true, ite_false, eq_self_iff_true,
      or_false, false_or, true_or, or_true, not_not]
    refine ⟨_, rfl, rfl, ⟨_, rfl, ?_⟩⟩
    intro k c hk hc
    exact paletteResetCopy_entry f3 8 _ _ k c hk hc
  · unfold divoom_image_decode_decode_one_big
    simp only [hm4, hp, hk4, and_self, not_true_eq_false, ne_eq, not_false_eq_true,
      if_true, if_false, ite_true, ite_false, eq_self_iff_true, or_true, true_or,
      Nat.pos_iff_ne_zero.mp hnz4, not_not,
      if_neg (not_lt.mpr hcap4)]
    refine ⟨_, rfl, ?_, rfl, ⟨_, rfl, ?_, ?_⟩⟩
    · exact land_ffff_of_le (by omega)
    · intro i hi
      exact paletteAppendCopy_preserved f4 8 s.count _ _ i (by omega) hi
    · intro k c hk hc
      exact paletteAppendCopy_entry f4 8 s.count _ _ k c (by omega) hk hc

/-- Witness for the kind-0x03-rebuild / kind-0x04-extend statement on
one-entry frames. -/
theorem big_kind3_rebuilds_kind4_extends_witness :
    c3WitnessState.palette = some c3WitnessOld ∧
    ((∃ r, divoom_image_decode_decode_one_big c3WitnessState
          [0xaa, 0, 0, 0, 0, 3, 1, 0, 9, 9, 9] = some r ∧
        r.1.count = u16le [0xaa, 0, 0, 0, 0, 3, 1, 0, 9, 9, 9] 6 ∧
        ∃ buf, r.1.palette = some buf ∧
          ∀ k c, k < u16le [0xaa, 0, 0, 0, 0, 3, 1, 0, 9, 9, 9] 6 → c < 3 →
            buf (3 * k + c) = byteAt [0xaa, 0, 0, 0, 0, 3, 1, 0, 9, 9, 9] (8 + 3 * k + c)) ∧
      (∃ r, divoom_image_decode_decode_one_big c3WitnessState
          [0xaa, 0, 0, 0, 0, 4, 1, 0, 8, 8, 8] = some r ∧
        r.1.count = c3WitnessState.count + u16le [0xaa, 0, 0, 0, 0, 4, 1, 0, 8, 8, 8] 6 ∧
        r.1.capacity = c3WitnessState.capacity ∧
        ∃ buf, r.1.palette = some buf ∧
          (∀ i, i < 3 * c3WitnessState.count → buf i = c3WitnessOld i) ∧
          (∀ k c, k < u16le [0xaa, 0, 0, 0, 0, 4, 1, 0, 8, 8, 8] 6 → c < 3 →
            buf (3 * (c3WitnessState.count + k) + c) =
              byteAt [0xaa, 0, 0, 0, 0, 4, 1, 0, 8, 8, 8] (8 + 3 * k + c)))) :=
  ⟨rfl, big_kind3_rebuilds_kind4_extends c3WitnessState c3WitnessOld _ _ rfl
    (by decide) (by decide) (by decide) (by decide) (by decide) (by decide) (by decide)⟩

/-- C10: decoding a raw-truecolor frame (kind 0x0B/0x0E at 64x64 in
`decode_one_64`, kind 0x02 at 32x32 in `decode_one_big`) frees the
decoder's palette buffer and nulls the palette pointer, so a
palette-continuation frame (kind 0x0D/0x10, or kind 0x04) decoded next
on the same handle always fails with an error instead of extending a
palette. -/
theorem raw_frame_nulls_palette_blocks_extension (s : DivoomDecoder)
    (f1 f2 g1 g2 : List Nat)
    (h1m : byteAt f1 0 = 0xaa)
    (h1k : byteAt f1 5 &&& 0x7f = 0xb ∨ byteAt f1 5 &&& 0x7f = 0xe)
    (h2m : byteAt f2 0 = 0xaa)
    (h2k : byteAt f2 5 &&& 0x7f = 0xd ∨ byteAt f2 5 &&& 0x7f = 0x10)
    (hg1m : byteAt g1 0 = 0xaa) (hg1k : byteAt g1 5 &&& 0x7f = 2)
    (hg2m : byteAt g2 0 = 0xaa) (hg2k : byteAt g2 5 &&& 0x7f = 4) :
    (∃ r, divoom_image_decode_decode_one_64 s f1 = some r ∧ r.1.palette = none ∧
       (divoom_image_decode_decode_one_64 r.1 f2).isNone = true ∧
       (divoom_image_decode_decode_one_big r.1 g2).isNone = true) ∧
    (∃ r, divoom_image_decode_decode_one_big s g1 = some r ∧ r.1.palette = none ∧
       (divoom_image_decode_decode_one_big r.1 g2).isNone = true ∧
       (divoom_image_decode_decode_one_64 r.1 f2).isNone = true) := by
  obtain ⟨hg64e, hnr64, hcase64⟩ := kind64_extend_cases _ (byteAt_lt f2 5) h2k
  have hext64none : ∀ t : DivoomDecoder, t.palette = none →
      (divoom_image_decode_decode_one_64 t f2).isNone = true := by
    intro t ht
    unfold divoom_image_decode_decode_one_64
    simp only [h2m, ht, hg64e.1, hg64e.2, hnr64, hcase64, and_self, not_true_eq_false,
      ne_eq, not_false_eq_true, if_true, if_false, ite_true, ite_false,
      eq_self_iff_true, not_not]
    rfl
  have hextbignone : ∀ t : DivoomDecoder, t.palette = none →
      (divoom_image_decode_decode_one_big t g2).isNone = true := by
    intro t ht
    unfold divoom_image_decode_decode_one_big
    simp only [hg2m, ht, hg2k, and_self, not_true_eq_false, ne_eq, not_false_eq_true,
      if_true, if_false, ite_true, ite_false, eq_self_iff_true, or_true, true_or, not_not]
    rfl
  constructor
  · obtain ⟨hg, hraw⟩ := kind64_raw_cases _ (byteAt_lt f1 5) h1k
    unfold divoom_image_decode_decode_one_64
    simp only [h1m, hg.1, hg.2, hraw, and_self, not_true_eq_false, ne_eq,
      not_false_eq_true, if_true, if_false, ite_true, ite_false, eq_self_iff_true, not_not]
    exact ⟨_, rfl, rfl, hext64none _ rfl, hextbignone _ rfl⟩
  · obtain ⟨hg, hn4⟩ := kindbig_kind2_cases _ (byteAt_lt g1 5) hg1k
    unfold divoom_image_decode_decode_one_big
    simp only [hg1m, hg, hg1k, hn4, and_self, not_true_eq_false, ne_eq,
      not_false_eq_true, if_true, if_false, ite_true, ite_false, eq_self_iff_true,
      or_false, false_or, true_or, or_true, not_not]
    exact ⟨_, rfl, rfl, hextbignone _ rfl, hext64none _ rfl⟩

/-- Witness for the raw-frame/extension-failure statement on minimal
headers. -/
theorem raw_frame_nulls_palette_blocks_extension_witness :
    (∃ r, divoom_image_decode_decode_one_64 c3WitnessState [0xaa, 0, 0, 0, 0, 0xb] = some r ∧
       r.1.palette = none ∧
       (divoom_image_decode_decode_one_64 r.1 [0xaa, 0, 0, 0, 0, 0xd, 0, 0]).isNone = true ∧
       (divoom_image_decode_decode_one_big r.1 [0xaa, 0, 0, 0, 0, 4, 0, 0]).isNone = true) ∧
    (∃ r, divoom_image_decode_decode_one_big c3WitnessState [0xaa, 0, 0, 0, 0, 2] = some r ∧
       r.1.palette = none ∧
       (divoom_image_decode_decode_one_big r.1 [0xaa, 0, 0, 0, 0, 4, 0, 0]).isNone = true ∧
       (divoom_image_decode_decode_one_64 r.1 [0xaa, 0, 0, 0, 0, 0xd, 0, 0]).isNone = true) :=
  raw_frame_nulls_palette_blocks_extension c3WitnessState _ _ _ _
    (by decide) (by decide) (by decide) (by decide) (by decide) (by decide)
    (by decide) (by decide)

/-- C2 counterexample: a kind-0x00 frame with a 3-entry palette whose
first bit-packed pixel index is 3 (bitstream byte 0x03, bits-per-index
2).  The index is not below the palette count 3, yet `decode_one`
decodes the frame (looking the index up in the palette buffer past the
initialized entries) instead of rejecting it: there is no PaletteOverflow
check anywhere in the pixel loops. -/
theorem decode_one_overflowing_index_not_rejected :
    (divoom_image_decode_decode_one ⟨0, 0, none⟩
      [0xaa, 0, 0, 0, 0, 0, 3, 1, 1, 1, 2, 2, 2, 3, 3, 3, 0x03]).isSome = true ∧
    divoom_image_get_dot_info_ex
      (List.drop 16 [0xaa, 0, 0, 0, 0, 0, 3, 1, 1, 1, 2, 2, 2, 3, 3, 3, 0x03]) 0 2 = 3 ∧
    byteAt [0xaa, 0, 0, 0, 0, 0, 3, 1, 1, 1, 2, 2, 2, 3, 3, 3, 0x03] 6 = 3 ∧
    ¬(3 < 3) :=
  ⟨by decide, by decide, by decide, by decide⟩

/-- Every emitted pixel of a decoded indexed frame is the palette-buffer
content at 3 times the 16-bit-masked BitReader index — whatever that
index is; indices at or above `palette.count` read whatever the buffer
holds there. -/
def IndexedPixelsFromBuffer (r : DivoomDecoder × (Nat → Nat × Nat × Nat) × Nat)
    (f : List Nat) (base bpi : Nat) : Prop :=
  ∃ buf, r.1.palette = some buf ∧
    ∀ j, r.2.1 j =
      (buf (3 * ((divoom_image_get_dot_info_ex (f.drop base) (j * bpi) bpi) &&& 0xffff)),
       buf (3 * ((divoom_image_get_dot_info_ex (f.drop base) (j * bpi) bpi) &&& 0xffff) + 1),
       buf (3 * ((divoom_image_get_dot_info_ex (f.drop base) (j * bpi) bpi) &&& 0xffff) + 2))

/-- Pointwise reading of `blockPixels` through the stand-alone
BitReader `divoom_image_get_dot_info_ex`. -/
theorem blockPixels_apply (f : List Nat) (base bpi : Nat) (buf : Nat → Nat) (j : Nat) :
    blockPixels f base bpi buf j =
      (buf (3 * ((divoom_image_get_dot_info_ex (f.drop base) (j * bpi) bpi) &&& 0xffff)),
       buf (3 * ((divoom_image_get_dot_info_ex (f.drop base) (j * bpi) bpi) &&& 0xffff) + 1),
       buf (3 * ((divoom_image_get_dot_info_ex (f.drop base) (j * bpi) bpi) &&& 0xffff) + 2)) := by
  simp only [blockPixels, inlineDotRead_eq_dot_info_ex]

/-- C2 amended: for the cited pixel loops (`decode_one` continuation
frames and `decode_one_64` extend frames), decoding always succeeds —
bit-packed indices are never validated against `palette.count` and no
frame is rejected for an out-of-range index — and each emitted pixel's 3
bytes equal the palette buffer bytes at 3 times the 16-bit-masked
BitReader (`get_dot_info_ex`) index. -/
theorem indexed_pixels_no_overflow_check_amended (s : DivoomDecoder) (old : Nat → Nat)
    (f g : List Nat) (hp : s.palette = some old)
    (hmf : byteAt f 0 = 0xaa) (hkf : byteAt f 5 = 1)
    (hcapf : s.count + byteAt f 6 ≤ s.capacity)
    (hmg : byteAt g 0 = 0xaa)
    (hkg : byteAt g 5 &&& 0x7f = 0xd ∨ byteAt g 5 &&& 0x7f = 0x10)
    (hcapg : s.count + u16le g 6 ≤ s.capacity) :
    (∃ r, divoom_image_decode_decode_one s f = some r ∧
      IndexedPixelsFromBuffer r f (byteAt f 6 * 3 + 7)
        (gdivoom_image_bits_table
          ((if byteAt f 6 = 0 then s.count else s.count + byteAt f 6) &&& 0xffff))) ∧
    (∃ r, divoom_image_decode_decode_one_64 s g = some r ∧
      IndexedPixelsFromBuffer r g ((u16le g 6 * 3 + 8) &&& 0xffff)
        (gdivoom_image_bits_table
          ((if u16le g 6 = 0 then s.count else s.count + u16le g 6) &&& 0xffff))) := by
  constructor
  · unfold divoom_image_decode_decode_one
    rw [hmf, hkf, hp]
    simp only [and_self, not_true_eq_false, ne_eq, not_false_eq_true, if_true, if_false,
      ite_true, ite_false, eq_self_iff_true, if_neg (not_lt.mpr hcapf), not_not,
      lt_self_iff_false, one_ne_zero]
    refine ⟨_, rfl, _, rfl, ?_⟩
    intro j
    exact blockPixels_apply _ _ _ _ j
  · obtain ⟨hg2, hnr, hcase⟩ := kind64_extend_cases _ (byteAt_lt g 5) hkg
    unfold divoom_image_decode_decode_one_64
    simp only [hmg, hp, hg2.1, hg2.2, hnr, hcase, and_self, not_true_eq_false, ne_eq,
      not_false_eq_true, if_true, if_false, ite_true, ite_false, eq_self_iff_true,
      if_neg (not_lt.mpr hcapg), not_not]
    refine ⟨_, rfl, _, rfl, ?_⟩
    intro j
    exact blockPixels_apply _ _ _ _ j

/-- Witness for the amended pixel-lookup statement: a continuation frame
with one new entry on the concrete one-entry handle. -/
theorem indexed_pixels_no_overflow_check_amended_witness :
    (∃ r, divoom_image_decode_decode_one c3WitnessState
        [0xaa, 0, 0, 0, 0, 1, 1, 7, 7, 7, 0xff] = some r ∧
      IndexedPixelsFromBuffer r [0xaa, 0, 0, 0, 0, 1, 1, 7, 7, 7, 0xff] (1 * 3 + 7)
        (gdivoom_image_bits_table
          ((if (1 : Nat) = 0 then c3WitnessState.count else c3WitnessState.count + 1) &&& 0xffff))) ∧
    (∃ r, divoom_image_decode_decode_one_64 c3WitnessState
        [0xaa, 0, 0, 0, 0, 0xd, 1, 0, 7, 7, 7, 0xff] = some r ∧
      IndexedPixelsFromBuffer r [0xaa, 0, 0, 0, 0, 0xd, 1, 0, 7, 7, 7, 0xff]
        ((1 * 3 + 8) &&& 0xffff)
        (gdivoom_image_bits_table
          ((if (1 : Nat) = 0 then c3WitnessState.count else c3WitnessState.count + 1) &&& 0xffff))) := by
  have h := indexed_pixels_no_overflow_check_amended c3WitnessState c3WitnessOld
    [0xaa, 0, 0, 0, 0, 1, 1, 7, 7, 7, 0xff] [0xaa, 0, 0, 0, 0, 0xd, 1, 0, 7, 7, 7, 0xff]
    rfl (by decide) (by decide) (by decide) (by decide) (by decide) (by decide)
  constructor
  · have h1 := h.1
    simpa using h1
  · have h2 := h.2
    simpa using h2


/-! ## The companion single-pic codec (`divoom_pic_encode` /
`divoom_pic_decode`, lines 4879-5321 and 4668-4876)

Byte buffers of this codec are embedded as the history of byte stores
(most recent first) on a zero-initialized buffer; `pbRead`/`pbWrite`
are the load/store of the C byte arrays. -/

def pbRead (b : List (Nat × Nat)) (i : Nat) : Nat :=
  match b.find? (fun e => e.1 == i) with
  | some e => e.2
  | none => 0

def pbWrite (b : List (Nat × Nat)) (i v : Nat) : List (Nat × Nat) :=
  (i, v % 256) :: b

/-- Pixel unpack of the 4-bit-per-channel packed 121-pixel image, as
read by the palette-build loop of `divoom_pic_encode`
(lines 4912-4940): two pixels per 3 bytes. -/
def picUnpackPixel (img : List Nat) (i : Nat) : Nat × Nat × Nat :=
  let off := (i >>> 1) + i
  let b0 := byteAt img off
  if i % 2 = 0 then (b0 &&& 0xf, b0 >>> 4, byteAt img (off + 1) &&& 0xf)
  else (b0 >>> 4, byteAt img (off + 1) &&& 0xf, (byteAt img (off + 1)) >>> 4)

/-- Palette build of `divoom_pic_encode` (lines 4909-4951) over the
first `n` pixels: each pixel's color is searched linearly in the palette
built so far (first match wins) and appended when absent; the result is
the palette in first-appearance order and the per-pixel index list. -/
def picBuildAux (img : List Nat) : Nat → List (Nat × Nat × Nat) × List Nat
  | 0 => ([], [])
  | i + 1 =>
    let pr := picBuildAux img i
    let c := picUnpackPixel img i
    match pr.1.findIdx? (fun e => e = c) with
    | some k => (pr.1, pr.2 ++ [k])
    | none => (pr.1 ++ [c], pr.2 ++ [pr.1.length])

/-- Palette emission loop of `divoom_pic_encode` (LAB_0024a448,
lines 4967-4987): entries packed two per 3 bytes starting at byte 2.
The C loop is a do/while over the entry index; it is modeled as a fold
over the palette list, identical for every nonempty palette (and a
121-pixel image always yields at least one entry). -/
def picEmitPalette : List (Nat × Nat × Nat) → Nat → List (Nat × Nat) → List (Nat × Nat)
  | [], _, buf => buf
  | (r, g, bl) :: rest, i, buf =>
    let pos := i + (i >>> 1)
    let buf2 :=
      if i % 2 = 0 then
        pbWrite (pbWrite buf (pos + 2) (r ||| g <<< 4)) (pos + 3)
          (bl ||| (pbRead buf (pos + 3) &&& 0xf0))
      else
        pbWrite (pbWrite buf (pos + 2) ((pbRead buf (pos + 2) &&& 0xf) ||| r <<< 4)) (pos + 3)
          (g ||| bl <<< 4)
    picEmitPalette rest (i + 1) buf2

/-- 1-bit membership-bitmap emission for two-color images
(lines 4993-5000): bit `i` of the bitmap at `hdr` is the pixel's palette
index; iterates `n` pixels upward from index `i`, as the C loop does. -/
def picEmitBitmap (idxs : List Nat) (hdr : Nat) : Nat → Nat → List (Nat × Nat) → List (Nat × Nat)
  | 0, _, buf => buf
  | n + 1, i, buf =>
    let pos := ((i >>> 3) &&& 0x1fff) + hdr
    picEmitBitmap idxs hdr n (i + 1)
      (pbWrite buf pos (pbRead buf pos ||| (idxs.getD i 0) <<< (i &&& 7)))

/-- Run-match inner do/while of the RLE emitters (lines 5205-5208 and
5216-5219): count how many of the following pixels repeat the current
index, up to `cap + 1`. -/
def picMatchRun (idxs : List Nat) (i cap : Nat) : Nat → Nat → Nat
  | 0, j => j
  | fuel + 1, j =>
    if idxs.getD i 0 ≠ idxs.getD (j + i + 1) 0 then j
    else if j + 1 = cap + 1 then j + 1
    else picMatchRun idxs i cap fuel (j + 1)

/-- Single-byte RLE emitter of the count-below-17 path
(LAB_0024a540, lines 5194-5220).  The decompiled advance
`i' = (cap + j + 1) & 0xffff` (with `cap = min(0x77 - i, 0xd)`) is kept
exactly as in the source; the loop can fail to reach 0x79 and then runs
forever, hence the fuel and `Option`. -/
def picRle1Aux (idxs : List Nat) (hdr : Nat) : Nat → Nat → Nat → List (Nat × Nat) →
    Option (List (Nat × Nat) × Nat)
  | 0, _, _, _ => none
  | fuel + 1, i, off, buf =>
    let step :=
      if i < 0x78 then
        let cap := if 0xc < 0x77 - i then 0xd else 0x77 - i
        let j := picMatchRun idxs i cap (cap + 2) 0
        ((cap + j + 1) &&& 0xffff, (j + 1) &&& 0xff)
      else ((i + 1) &&& 0xffff, 1)
    let buf2 := pbWrite buf (hdr + (off &&& 0xffff)) ((idxs.getD i 0) ||| step.2 <<< 4)
    if step.1 < 0x79 then picRle1Aux idxs hdr fuel step.1 (off + 1) buf2
    else some (buf2, off + 1)

/-- Two-byte RLE emitter of the count-above-16 path (lines 5005-5034),
same advance structure as `picRle1Aux`. -/
def picRle2Aux (idxs : List Nat) (hdr : Nat) : Nat → Nat → Nat → List (Nat × Nat) →
    Option (List (Nat × Nat) × Nat)
  | 0, _, _, _ => none
  | fuel + 1, i, off, buf =>
    let step :=
      if i < 0x78 then
        let cap := if 0xc < 0x77 - i then 0xd else 0x77 - i
        let j := picMatchRun idxs i cap (cap + 2) 0
        ((cap + j + 1) &&& 0xffff, (j + 1) &&& 0xff)
      else ((i + 1) &&& 0xffff, 1)
    let buf2 := pbWrite (pbWrite buf (hdr + (off &&& 0xffff)) (idxs.getD i 0))
      (hdr + ((off &&& 0xffff) ||| 1)) step.2
    if step.1 < 0x79 then picRle2Aux idxs hdr fuel step.1 (off + 2) buf2
    else some (buf2, off + 2)

/-- 4-bit direct-index blob of mode 1 (lines 5222-5311); the high nibble
of the final byte comes from an uninitialized stack local in the C code
and is modeled as 0. -/
def picMode1BlobAux (idxs : List Nat) (hdr : Nat) : Nat → List (Nat × Nat) → List (Nat × Nat)
  | 0, buf => buf
  | t + 1, buf =>
    picMode1BlobAux idxs hdr t
      (pbWrite buf (hdr + (0x3c - (t + 1))) ((idxs.getD (2 * (0x3c - (t + 1))) 0) |||
        (idxs.getD (2 * (0x3c - (t + 1)) + 1) 0) <<< 4))

def picMode1Blob (idxs : List Nat) (hdr : Nat) (buf : List (Nat × Nat)) : List (Nat × Nat) :=
  pbWrite (picMode1BlobAux idxs hdr 0x3c buf) (hdr + 0x3c) (idxs.getD 0x78 0)

/-- 8-bit direct-index blob of mode 3 (lines 5035-5179): byte `t` of the
body is pixel `t`'s palette index, for `t` below `n`. -/
def picMode3Blob (idxs : List Nat) (hdr : Nat) : Nat → Nat → List (Nat × Nat) → List (Nat × Nat)
  | 0, _, buf => buf
  | n + 1, t, buf => picMode3Blob idxs hdr n (t + 1) (pbWrite buf (hdr + t) (idxs.getD t 0))

/-- Finish of the mode-0 path: run the single-byte RLE; if the body
reached 0xb7 bytes, rewrite as mode 1. -/
def picRle1Finish (idxs : List Nat) (hdr : Nat) (buf : List (Nat × Nat)) :
    Option (List (Nat × Nat) × Nat) :=
  match picRle1Aux idxs (hdr &&& 0xffff) 0x10000 0 0 buf with
  | none => none
  | some r =>
    if r.2 &&& 0xffff < 0xb7 then some (r.1, hdr + (r.2 &&& 0xffff))
    else some (pbWrite (picMode1Blob idxs (hdr &&& 0xffff) r.1) 0 1, hdr + 0xb6)

/-- Finish of the mode-2 path: run the two-byte RLE; if the body reached
0x7a bytes, rewrite as mode 3. -/
def picRle2Finish (idxs : List Nat) (hdr : Nat) (buf : List (Nat × Nat)) :
    Option (List (Nat × Nat) × Nat) :=
  match picRle2Aux idxs (hdr &&& 0xffff) 0x10000 0 0 buf with
  | none => none
  | some r =>
    if r.2 &&& 0xffff < 0x7a then some (r.1, hdr + (r.2 &&& 0xffff))
    else some (pbWrite (picMode3Blob idxs (hdr &&& 0xffff) 0x79 0 r.1) 0 3, hdr + 0x79)

/-- Post-palette dispatch of `divoom_pic_encode` (lines 4988-5004 and
the jumps out of LAB_0024a448): empty body for one color, membership
bitmap for two colors, single-byte RLE below 17 colors, two-byte RLE
above 16. -/
def picAfterPalette (idxs : List Nat) (cnt hdr : Nat) (buf : List (Nat × Nat)) :
    Option (List (Nat × Nat) × Nat) :=
  if cnt &&& 0xffff = 1 then some (buf, hdr)
  else if cnt &&& 0xffff = 2 then
    some (picEmitBitmap idxs (hdr &&& 0xffff) 0x79 0 buf, hdr + 0x10)
  else if cnt &&& 0xffff < 0x11 then picRle1Finish idxs hdr buf
  else picRle2Finish idxs hdr buf

/-- `divoom_pic_encode` (lines 4879-5321): palette build, mode selection
and emission, returning the output buffer and the stored output size.
The mode-4 and mode-5 selections (lines 4952-4965) compare the *byte
offset of the body* (`(3*count+1)/2 + 2`, reassigned at line 4951 and
never below 2) against 1 and 2, so they are taken only for the
impossible palette sizes making that offset 1 or 2; a 121-pixel image
always has 1..121 colors, for which the mode byte written is 0
(count at most 16) or 2/3 (count above 16). -/
def divoom_pic_encode (img : List Nat) : Option (List (Nat × Nat) × Nat) :=
  let pr := picBuildAux img 0x79
  let cnt := pr.1.length &&& 0xffff
  let hdr := ((cnt + cnt * 2 + 1) >>> 1) + 2
  if hdr = 1 then
    picAfterPalette pr.2 cnt hdr (picEmitPalette pr.1 0 (pbWrite (pbWrite [] 0 4) 1 cnt))
  else if hdr = 2 then
    picAfterPalette pr.2 cnt hdr (picEmitPalette pr.1 0 (pbWrite (pbWrite [] 0 5) 1 cnt))
  else if 0x10 < cnt then
    picAfterPalette pr.2 cnt hdr (picEmitPalette pr.1 0 (pbWrite (pbWrite [] 0 2) 1 cnt))
  else
    let buf1 := pbWrite (pbWrite [] 0 0) 1 cnt
    if cnt ≠ 0 then picAfterPalette pr.2 cnt hdr (picEmitPalette pr.1 0 buf1)
    else picRle1Finish pr.2 hdr buf1

/-- Palette parse of `divoom_pic_decode` (lines 4692-4716): unpack
`paletteSize` 4-bit RGB entries from bytes 2.. of the encoded buffer
into the stack palette buffer (modeled zero-initialized). -/
def picDecodePalette (enc : List (Nat × Nat)) : Nat → Nat → List (Nat × Nat) → List (Nat × Nat)
  | 0, _, pb => pb
  | n + 1, i, pb =>
    let po := (i + ((i &&& 0xfffe) >>> 1)) &&& 0xffff
    let b0 := pbRead enc (po + 2)
    let pb2 :=
      if i % 2 = 0 then
        pbWrite (pbWrite (pbWrite pb (3 * i) (b0 &&& 0xf)) (3 * i + 1) (b0 >>> 4))
          (3 * i + 2) (pbRead enc (po + 3) &&& 0xf)
      else
        pbWrite (pbWrite (pbWrite pb (3 * i) (b0 >>> 4)) (3 * i + 1) (pbRead enc (po + 3) &&& 0xf))
          (3 * i + 2) (pbRead enc (po + 3) >>> 4)
    picDecodePalette enc n (i + 1) pb2

/-- Write one decoded pixel into the packed output raster (the shared
even/odd nibble-merge pattern of every decode mode, e.g. lines
4730-4745). -/
def picWritePixel (out pb : List (Nat × Nat)) (pi px : Nat) : List (Nat × Nat) :=
  let t := (px >>> 1) + px
  if px % 2 = 0 then
    pbWrite (pbWrite out t ((pbRead pb pi) ||| (pbRead pb (pi + 1)) <<< 4)) (t + 1)
      ((pbRead pb (pi + 2)) ||| (pbRead out (t + 1) &&& 0xf0))
  else
    pbWrite (pbWrite out t ((pbRead out t &&& 0xf) ||| (pbRead pb pi) <<< 4)) (t + 1)
      ((pbRead pb (pi + 1)) ||| (pbRead pb (pi + 2)) <<< 4)

/-- Write a run of `n` copies of palette entry `pi` starting at the
16-bit pixel index `px`. -/
def picWriteRun (pb : List (Nat × Nat)) (pi : Nat) : Nat → Nat → List (Nat × Nat) →
    List (Nat × Nat)
  | _, 0, out => out
  | px, n + 1, out =>
    picWriteRun pb pi ((px + 1) &&& 0xffff) n (picWritePixel out pb pi (px &&& 0xffff))

/-- Mode-0 RLE decode scan (lines 4719-4750): a body byte below 0x10
writes nothing and does not advance the pixel index, so the C loop can
scan forever; fuel-indexed. -/
def picDecodeMode0 (enc pb : List (Nat × Nat)) : Nat → Nat → Nat → List (Nat × Nat) →
    Option (List (Nat × Nat))
  | 0, _, _, _ => none
  | fuel + 1, px, off, out =>
    let b := pbRead enc (off &&& 0xffff)
    let out2 :=
      if 0xf < b then
        picWriteRun pb ((b &&& 0xf) * 3) px (if b >>> 4 < 2 then 1 else b >>> 4) out
      else out
    let px2 := (px + (b >>> 4)) &&& 0xffff
    if px2 < 0x79 then picDecodeMode0 enc pb fuel px2 (off + 1) out2
    else some out2

/-- Mode-2 (index, count) pair decode scan (lines 4773-4800);
fuel-indexed for the same reason as mode 0. -/
def picDecodeMode2 (enc pb : List (Nat × Nat)) : Nat → Nat → Nat → List (Nat × Nat) →
    Option (List (Nat × Nat))
  | 0, _, _, _ => none
  | fuel + 1, px, off, out =>
    let cntb := pbRead enc ((off + 1) &&& 0xffff)
    let out2 :=
      if cntb ≠ 0 then picWriteRun pb ((pbRead enc (off &&& 0xffff)) * 3) px cntb out else out
    let px2 := (px + cntb) &&& 0xffff
    if px2 < 0x79 then picDecodeMode2 enc pb fuel px2 (off + 2) out2
    else some out2

/-- Mode-1 4-bit direct-index decode (lines 4751-4771): `n` pixels
upward from pixel `i`. -/
def picDecodeMode1Aux (enc pb : List (Nat × Nat)) (hdr : Nat) : Nat → Nat → List (Nat × Nat) →
    List (Nat × Nat)
  | 0, _, out => out
  | n + 1, i, out =>
    let bb := pbRead enc ((i >>> 1) + hdr)
    picDecodeMode1Aux enc pb hdr n (i + 1)
      (picWritePixel out pb (if i % 2 = 0 then (bb &&& 0xf) * 3 else (bb >>> 4) * 3) i)

/-- Mode-3 (default) 8-bit direct-index decode (lines 4802-4823). -/
def picDecodeMode3Aux (enc pb : List (Nat × Nat)) (hdr : Nat) : Nat → Nat → List (Nat × Nat) →
    List (Nat × Nat)
  | 0, _, out => out
  | n + 1, i, out =>
    picDecodeMode3Aux enc pb hdr n (i + 1)
      (picWritePixel out pb ((pbRead enc (i + hdr)) * 3) i)

/-- Mode-4 flat-color decode (lines 4824-4840): every pixel from palette
entry 0. -/
def picDecodeMode4Aux (pb : List (Nat × Nat)) : Nat → Nat → List (Nat × Nat) → List (Nat × Nat)
  | 0, _, out => out
  | n + 1, i, out => picDecodeMode4Aux pb n (i + 1) (picWritePixel out pb 0 i)

/-- Mode-5 membership-bitmap decode (lines 4841-4869): bit `i` of the
bitmap selects palette entry 0 or 1. -/
def picDecodeMode5Aux (enc pb : List (Nat × Nat)) (hdr : Nat) : Nat → Nat → List (Nat × Nat) →
    List (Nat × Nat)
  | 0, _, out => out
  | n + 1, i, out =>
    picDecodeMode5Aux enc pb hdr n (i + 1)
      (picWritePixel out pb
        (if (pbRead enc ((i >>> 3) + hdr) >>> (i &&& 7)) &&& 1 = 0 then 0 else 3) i)

/-- `divoom_pic_decode` (lines 4668-4876): palette parse then dispatch
on the mode byte; the caller's output raster is modeled zero-initialized
(theorem statements only compare bytes that the decode fully writes). -/
def divoom_pic_decode (enc : List (Nat × Nat)) : Option (List (Nat × Nat)) :=
  let paletteSize := pbRead enc 1
  let pb := picDecodePalette enc paletteSize 0 []
  let hdr := ((paletteSize * 3 + 1) >>> 1) + 2
  match pbRead enc 0 with
  | 0 => picDecodeMode0 enc pb 0x10000 0 hdr []
  | 1 => some (picDecodeMode1Aux enc pb hdr 0x79 0 [])
  | 2 => picDecodeMode2 enc pb 0x10000 0 hdr []
  | 4 => some (picDecodeMode4Aux pb 0x79 0 [])
  | 5 => some (picDecodeMode5Aux enc pb hdr 0x79 0 [])
  | _ => some (picDecodeMode3Aux enc pb hdr 0x79 0 [])

/-- Pack a 121-pixel 4-bit-per-channel image into the 182-byte wire
layout that `divoom_pic_encode` consumes (two pixels per 3 bytes; the
inverse of `picUnpackPixel`).  Used to build concrete test images. -/
def packPic (pix : Nat → Nat × Nat × Nat) : List Nat :=
  (List.range 60).flatMap (fun k =>
    [(pix (2 * k)).1 ||| (pix (2 * k)).2.1 <<< 4,
     (pix (2 * k)).2.2 ||| (pix (2 * k + 1)).1 <<< 4,
     (pix (2 * k + 1)).2.1 ||| (pix (2 * k + 1)).2.2 <<< 4]) ++
  [(pix 120).1 ||| (pix 120).2.1 <<< 4, (pix 120).2.2]

/-- A flat image: all 121 pixels are the color (1,1,1). -/
def flatImg : List Nat := packPic (fun _ => (1, 1, 1))

/-- A two-color image: pixels of the first 9 rows whose column index is
4..7 are (2,2,2), all others (1,1,1). -/
def twoColorImg : List Nat :=
  packPic (fun p => if p < 72 ∧ 4 ≤ p % 8 then (2, 2, 2) else (1, 1, 1))

set_option maxRecDepth 1000000 in
/-- C8: counterexample.  The mode-4/mode-5 selections of
`divoom_pic_encode` are dead for every real image: the branches at
lines 4952-4965 compare the reassigned body-offset variable
`(3*count+1)/2 + 2` (never below 4 for a nonempty palette) against 1
and 2, not the color count.  Concretely, the flat image has exactly 1
distinct color yet encodes with mode byte 0 (not 4), and the two-color
image has exactly 2 distinct colors yet also encodes with mode byte 0
(not 5). -/
theorem pic_encode_degenerate_mode_selection_broken :
    (picBuildAux flatImg 0x79).1.length = 1 ∧
    (divoom_pic_encode flatImg).map (fun r => pbRead r.1 0) = some 0 ∧
    (picBuildAux twoColorImg 0x79).1.length = 2 ∧
    (divoom_pic_encode twoColorImg).map (fun r => pbRead r.1 0) = some 0 := by decide

set_option maxRecDepth 1000000 in
/-- C1: counterexample.  The pic round-trip fails: for the two-color
image, `divoom_pic_encode` emits mode byte 0 with a 1-bit membership
bitmap body (the dead-mode-5 slip noted on the C8 theorem), which
`divoom_pic_decode` then parses as mode-0 RLE; the decoded raster has
byte 6 equal to 0x11 while the original image's byte 6 is 0x22, so
decode (encode twoColorImg) differs from twoColorImg. -/
theorem pic_roundtrip_fails_on_two_color_image :
    ((divoom_pic_encode twoColorImg).bind (fun r => divoom_pic_decode r.1)).map
      (fun o => pbRead o 6) = some 0x11 ∧
    byteAt twoColorImg 6 = 0x22 := by decide
